import Mathlib

/-!
Shallow embedding of the watchlist repository (Go) for specification checking.

The embedding covers:
* `pkg/logger/logger.go` — KafkaHandler, FileHandler, StdoutHandler,
  MultiHandler, NewLogger;
* `internal/config` (src/unnamed/part_001, first section) — the
  LOG_BUFFER_SIZE handling of LoadConfig;
* `internal/repository` (src/unnamed/part_001, third section) —
  PostgresRepository over an explicit store state;
* `internal/service/service.go` — WatchlistService over the same state.

Go machine state (channels, files, the Kafka producer, the SQL store) is made
explicit: a buffered channel is a list bounded by its capacity, the log file is
the list of appended lines, the producer input is the list of submitted
messages, and the database is a list of rows. Effects (returned errors, stdout
diagnostics, structured log output) are returned values.
-/

namespace Watchlist

/-- A Go `error` value, identified by its message (the repository only ever
compares errors by identity via `errors.Is` against sentinel values, which the
message determines here). -/
structure GoError where
  msg : String
deriving DecidableEq, Repr

/-- The four `slog` levels the program uses. -/
inductive Level where
  | debug
  | info
  | warn
  | error
deriving DecidableEq, Repr

/-- `slog.Level.String()` for the four levels used. -/
def Level.string : Level → String
  | .debug => "DEBUG"
  | .info => "INFO"
  | .warn => "WARN"
  | .error => "ERROR"

/-- A Go `time.Time`, abstracted by its RFC3339 rendering (the only use the
embedded code makes of a timestamp is `t.Format(time.RFC3339)`). -/
structure GoTime where
  rfc3339 : String
deriving DecidableEq, Repr

/-- `t.Format(time.RFC3339)` on the abstracted time. -/
def GoTime.formatRFC3339 (t : GoTime) : String := t.rfc3339

/-- An `slog.Record` as the logger consumes it: time, level and message
(structured attributes are never read by any sink in `logger.go`). -/
structure SlogRecord where
  time : GoTime
  level : Level
  message : String
deriving DecidableEq, Repr

/-! ## Config: LOG_BUFFER_SIZE handling of LoadConfig -/

/-- Numeric value of a list of decimal digit characters (used by `goAtoi`). -/
def digitsToNat (ds : List Char) : Nat :=
  ds.foldl (fun acc d => acc * 10 + (d.toNat - ('0').toNat)) 0

/-- Go `strconv.Atoi` on a 64-bit platform: optional sign, then one or more
decimal digits, rejecting anything else; a value outside the `int64` range is
a range error. `none` stands for a non-nil returned error (syntax or range). -/
def goAtoi (s : String) : Option Int :=
  match s.data with
  | [] => none
  | c :: cs =>
    let signAndDigits : Bool × List Char :=
      if c = '-' then (true, cs)
      else if c = '+' then (false, cs)
      else (false, c :: cs)
    let neg := signAndDigits.1
    let ds := signAndDigits.2
    if ds.isEmpty then none
    else if ¬ (ds.all Char.isDigit) then none
    else
      let n := digitsToNat ds
      if neg then
        if n ≤ 2 ^ 63 then some (-(n : Int)) else none
      else
        if n < 2 ^ 63 then some (n : Int) else none

/-- Embeds the LOG_BUFFER_SIZE logic of `LoadConfig`: `strconv.Atoi` on the
environment value, falling back to 100 when the parse errs or the parsed value
is not positive. -/
def parseLogBufferSize (s : String) : Int :=
  match goAtoi s with
  | none => 100
  | some v => if v ≤ 0 then 100 else v

/-! ## KafkaHandler -/

/-- A `sarama.ProducerMessage` as `KafkaHandler.processLogs` builds it. The
value is the JSON object `json.Marshal` produces for the log-entry map, kept as
its key/value entries in the order Go emits them (map keys sorted). -/
structure ProducerMessage where
  topic : String
  key : String
  value : List (String × String)
deriving DecidableEq, Repr

/-- `KafkaHandler`: the topic, the capacity and current contents of the
buffered channel `logChan`, and (as explicit state) the sequence of messages
submitted so far to `producer.Input()`. -/
structure KafkaHandler where
  topic : String
  cap : Nat
  logChan : List SlogRecord
  produced : List ProducerMessage
deriving DecidableEq, Repr

/-- The log-entry map built in `KafkaHandler.processLogs`, with its entries in
the order `json.Marshal` serializes a Go map (keys sorted lexicographically:
level, msg, time). -/
def kafkaLogEntry (record : SlogRecord) : List (String × String) :=
  [("level", record.level.string),
   ("msg", record.message),
   ("time", record.time.formatRFC3339)]

/-- `KafkaHandler.Handle`: a non-blocking send on `logChan`. With buffer space
the record is enqueued; otherwise the `default` branch prints a diagnostic and
drops the record. Returns the Go error, the new handler state, and the lines
printed to stdout by this call. -/
def KafkaHandler.Handle (k : KafkaHandler) (record : SlogRecord) :
    Option GoError × KafkaHandler × List String :=
  if k.logChan.length < k.cap then
    (none, { k with logChan := k.logChan ++ [record] }, [])
  else
    (none, k, ["log channel is full, dropping log message"])

/-- One iteration of `KafkaHandler.processLogs` receiving a record: it is
serialized and submitted to `producer.Input()` keyed by "log". With an empty
channel the worker blocks, so the state is unchanged. -/
def KafkaHandler.workStep (k : KafkaHandler) : KafkaHandler :=
  match k.logChan with
  | [] => k
  | record :: rest =>
    { k with
      logChan := rest,
      produced := k.produced ++ [⟨k.topic, "log", kafkaLogEntry record⟩] }

/-! ## FileHandler -/

/-- `FileHandler`: the capacity and contents of `logChan`, the log file path,
and the lines appended to the file so far. -/
structure FileHandler where
  path : String
  cap : Nat
  logChan : List SlogRecord
  fileContents : List String
deriving DecidableEq, Repr

/-- The line `FileHandler.processLogs` formats for a record
(`"[%s] - %s - %s"` with level, RFC3339 time, message). -/
def fileLine (record : SlogRecord) : String :=
  "[" ++ record.level.string ++ "] - " ++ record.time.formatRFC3339
    ++ " - " ++ record.message

/-- `FileHandler.Handle`: a non-blocking send on `logChan`, dropping the record
with a printed diagnostic when the buffer is full. Returns the Go error, the
new state, and the lines printed to stdout by this call. -/
def FileHandler.Handle (f : FileHandler) (record : SlogRecord) :
    Option GoError × FileHandler × List String :=
  if f.logChan.length < f.cap then
    (none, { f with logChan := f.logChan ++ [record] }, [])
  else
    (none, f, ["file log channel is full, dropping log message"])

/-- One iteration of `FileHandler.processLogs` receiving a record: the
formatted line plus `'\n'` is appended to the file. With an empty channel the
worker blocks, so the state is unchanged. -/
def FileHandler.workStep (f : FileHandler) : FileHandler :=
  match f.logChan with
  | [] => f
  | record :: rest =>
    { f with
      logChan := rest,
      fileContents := f.fileContents ++ [fileLine record ++ "\n"] }

/-! ## StdoutHandler -/

/-- `StdoutHandler`: its only field is the stdout writer, carried here as a
unit (its behaviour is synchronous and stateless). -/
structure StdoutHandler where
  writerIsStdout : Bool := true
deriving DecidableEq, Repr

/-- `NewStdoutHandler`. -/
def NewStdoutHandler : StdoutHandler := { writerIsStdout := true }

/-! ## The slog.Handler implementations and the MultiHandler -/

/-- An `slog.Attr` (opaque to every handler in this repository: no handler
ever reads one). -/
structure Attr where
  key : String
  value : String
deriving DecidableEq, Repr

/-- `KafkaHandler.WithAttrs` returns the receiver unchanged. -/
def KafkaHandler.WithAttrs (k : KafkaHandler) (_attrs : List Attr) : KafkaHandler := k

/-- `KafkaHandler.WithGroup` returns the receiver unchanged. -/
def KafkaHandler.WithGroup (k : KafkaHandler) (_name : String) : KafkaHandler := k

/-- `FileHandler.WithAttrs` returns the receiver unchanged. -/
def FileHandler.WithAttrs (f : FileHandler) (_attrs : List Attr) : FileHandler := f

/-- `FileHandler.WithGroup` returns the receiver unchanged. -/
def FileHandler.WithGroup (f : FileHandler) (_name : String) : FileHandler := f

/-- `StdoutHandler.WithAttrs` returns the receiver unchanged. -/
def StdoutHandler.WithAttrs (s : StdoutHandler) (_attrs : List Attr) : StdoutHandler := s

/-- `StdoutHandler.WithGroup` returns the receiver unchanged. -/
def StdoutHandler.WithGroup (s : StdoutHandler) (_name : String) : StdoutHandler := s

/-- The closed set of non-composite `slog.Handler` implementations of the
repository, over which dynamic dispatch happens (every `MultiHandler` the
program builds has exactly such children). -/
inductive LeafHandler where
  | kafka (k : KafkaHandler)
  | file (f : FileHandler)
  | stdout (s : StdoutHandler)
deriving DecidableEq, Repr

/-- Dynamic dispatch of `WithAttrs` over the child handler types. -/
def LeafHandler.WithAttrs : LeafHandler → List Attr → LeafHandler
  | .kafka k, attrs => .kafka (k.WithAttrs attrs)
  | .file f, attrs => .file (f.WithAttrs attrs)
  | .stdout s, attrs => .stdout (s.WithAttrs attrs)

/-- Dynamic dispatch of `WithGroup` over the child handler types. -/
def LeafHandler.WithGroup : LeafHandler → String → LeafHandler
  | .kafka k, name => .kafka (k.WithGroup name)
  | .file f, name => .file (f.WithGroup name)
  | .stdout s, name => .stdout (s.WithGroup name)

/-- `MultiHandler`: the ordered list of child handlers. -/
structure MultiHandler where
  handlers : List LeafHandler
deriving DecidableEq, Repr

/-- `NewMultiHandler`. -/
def NewMultiHandler (handlers : List LeafHandler) : MultiHandler :=
  { handlers := handlers }

/-- `MultiHandler.WithAttrs`: builds a fresh slice holding each child's
`WithAttrs` result and wraps it in a new `MultiHandler`. -/
def MultiHandler.WithAttrs (m : MultiHandler) (attrs : List Attr) : MultiHandler :=
  NewMultiHandler (m.handlers.map (fun h => h.WithAttrs attrs))

/-- `MultiHandler.WithGroup`: builds a fresh slice holding each child's
`WithGroup` result and wraps it in a new `MultiHandler`. -/
def MultiHandler.WithGroup (m : MultiHandler) (name : String) : MultiHandler :=
  NewMultiHandler (m.handlers.map (fun h => h.WithGroup name))

/-! ## MultiHandler.Handle / Enabled / CloseAll over abstract children

`MultiHandler` stores its children as `slog.Handler` interface values; the
claims about `Handle`, `Enabled` and `CloseAll` quantify over arbitrary child
sinks, so those methods are embedded over children abstracted by their method
results: `Enabled` and `Handle` as result functions, plus whether the child's
dynamic type has a `Close` method and what that `Close` returns. -/

/-- A child `slog.Handler`, abstracted by the results of its methods. -/
structure AbsSink where
  Enabled : Level → Bool
  Handle : SlogRecord → Option GoError
  closable : Bool
  CloseErr : Option GoError

/-- `MultiHandler.Enabled` over abstract children: true when any child is
enabled for the level (short-circuit OR, as the early `return true` does). -/
def MultiAbs.Enabled (hs : List AbsSink) (level : Level) : Bool :=
  hs.any (fun h => h.Enabled level)

/-- The loop of `MultiHandler.Handle`, carrying `firstErr`. Besides the
returned error it yields the per-child `Handle` results in invocation order
(the trace of the calls the loop makes). -/
def MultiAbs.handleLoop :
    List AbsSink → SlogRecord → Option GoError → Option GoError × List (Option GoError)
  | [], _, firstErr => (firstErr, [])
  | h :: hs, record, firstErr =>
    let e := h.Handle record
    let firstErr' :=
      match e, firstErr with
      | some err, none => some err
      | _, _ => firstErr
    let rest := MultiAbs.handleLoop hs record firstErr'
    (rest.1, e :: rest.2)

/-- `MultiHandler.Handle` over abstract children: forwards the record to every
child, returning the first error encountered, plus the invocation trace. -/
def MultiAbs.Handle (hs : List AbsSink) (record : SlogRecord) :
    Option GoError × List (Option GoError) :=
  MultiAbs.handleLoop hs record none

/-- The first non-nil error in a list of per-child results (the value
`firstErr` holds after the loop). -/
def firstErrOf : List (Option GoError) → Option GoError
  | [] => none
  | some e :: _ => some e
  | none :: rest => firstErrOf rest

/-- `MultiHandler.CloseAll` over abstract children: for each child whose
dynamic type has `Close`, invokes it and discards the result. The returned
list is the trace of the `Close` results in invocation order (the Go method
returns nothing). -/
def MultiAbs.CloseAll : List AbsSink → List (Option GoError)
  | [] => []
  | h :: hs =>
    if h.closable then h.CloseErr :: MultiAbs.CloseAll hs
    else MultiAbs.CloseAll hs

/-! ## Construction: NewKafkaHandler, NewFileHandler, NewLogger -/

/-- The external circumstances `NewLogger` runs under: whether the async
producer can be created (broker reachable), whether `os.MkdirAll` and
`os.OpenFile` succeed, and the error each failing step reports. -/
structure BuildEnv where
  kafkaOk : Bool
  mkdirOk : Bool
  openOk : Bool
  kafkaErr : GoError
  mkdirErr : GoError
  openErr : GoError

/-- The operating-system resources logger construction can acquire. -/
structure Resources where
  kafkaProducerOpen : Bool
  logDirCreated : Bool
  logFileOpen : Bool
deriving DecidableEq, Repr

/-- The resource state before `NewLogger` runs: nothing acquired. -/
def Resources.initial : Resources :=
  { kafkaProducerOpen := false, logDirCreated := false, logFileOpen := false }

/-- `NewKafkaHandler`: creating the async producer either fails (wrapping the
sarama error, no resource acquired) or yields a handler with an empty buffered
channel of the requested capacity and an open producer. -/
def NewKafkaHandler (env : BuildEnv) (topic : String) (bufferSize : Nat)
    (res : Resources) : Except GoError KafkaHandler × Resources :=
  if env.kafkaOk then
    (.ok { topic := topic, cap := bufferSize, logChan := [], produced := [] },
     { res with kafkaProducerOpen := true })
  else
    (.error ⟨"failed to create async producer: " ++ env.kafkaErr.msg⟩, res)

/-- `NewFileHandler`: `os.MkdirAll` on `logs/<serviceName>` then `os.OpenFile`
on `app.log` inside it; either step failing propagates its error, leaving the
resources acquired so far. -/
def NewFileHandler (env : BuildEnv) (serviceName : String) (bufferSize : Nat)
    (res : Resources) : Except GoError FileHandler × Resources :=
  if ¬ env.mkdirOk then
    (.error env.mkdirErr, res)
  else
    let res1 := { res with logDirCreated := true }
    if ¬ env.openOk then
      (.error env.openErr, res1)
    else
      (.ok { path := "logs/" ++ serviceName ++ "/app.log", cap := bufferSize,
             logChan := [], fileContents := [] },
       { res1 with logFileOpen := true })

/-- The resource effect of `KafkaHandler.Close`: the producer connection is
closed. -/
def KafkaHandler.CloseRes (res : Resources) : Resources :=
  { res with kafkaProducerOpen := false }

/-- The `slog.Logger` handle `NewLogger` returns, identified by its handler. -/
structure Logger where
  handler : MultiHandler
deriving DecidableEq, Repr

/-- `NewLogger`: constructs the Kafka handler, then the file handler (closing
the Kafka handler and propagating the error if that fails), then the stdout
handler, and wraps the three in a `MultiHandler`. Returns the result together
with the final resource state. -/
def NewLogger (env : BuildEnv) (kafkaTopic serviceName : String)
    (bufferSize : Nat) : Except GoError Logger × Resources :=
  match NewKafkaHandler env kafkaTopic bufferSize Resources.initial with
  | (.error e, res1) => (.error e, res1)
  | (.ok kafkaHandler, res1) =>
    match NewFileHandler env serviceName bufferSize res1 with
    | (.error e, res2) => (.error e, KafkaHandler.CloseRes res2)
    | (.ok fileHandler, res2) =>
      let stdoutHandler := NewStdoutHandler
      let multiHandler := NewMultiHandler
        [.kafka kafkaHandler, .file fileHandler, .stdout stdoutHandler]
      (.ok { handler := multiHandler }, res2)

/-! ## Repository (PostgresRepository) and service (WatchlistService)

The gRPC context is abstracted by whether its cancellation signal has fired at
call entry (a pure call sees one consistent snapshot) and by the error
`ctx.Err()` then reports. The database is a list of rows with an
auto-increment counter; every executed database statement is also recorded in
`dbOps`, and every `slog` call the methods make is recorded in `logs`. -/

/-- A Go `context.Context`, abstracted by its cancellation snapshot. -/
structure Context where
  done : Bool
  cause : GoError
deriving DecidableEq, Repr

/-- A row of the `watchlist` table (`repository.GormWatchlist`). -/
structure GormWatchlist where
  ID : Nat
  MediaID : Nat
  UserID : Nat
  CreatedAt : GoTime
deriving DecidableEq, Repr

/-- One structured log record as the repository/service emit it: level,
message, and the `slog.Any("error", ...)` attribute when present. -/
structure LogEntry where
  level : Level
  msg : String
  errAttr : Option GoError
deriving DecidableEq, Repr

/-- The mutable world the repository and service touch: the table rows, the
auto-increment primary-key counter, the emitted log records, and the trace of
executed database statements. -/
structure SysState where
  store : List GormWatchlist
  nextID : Nat
  logs : List LogEntry
  dbOps : List String
deriving DecidableEq, Repr

/-- Emit an error-level log record with an error attribute. -/
def SysState.logError (s : SysState) (msg : String) (e : GoError) : SysState :=
  { s with logs := s.logs ++ [⟨.error, msg, some e⟩] }

/-- Emit a warn-level log record. -/
def SysState.logWarn (s : SysState) (msg : String) : SysState :=
  { s with logs := s.logs ++ [⟨.warn, msg, none⟩] }

/-- Emit an info-level log record. -/
def SysState.logInfo (s : SysState) (msg : String) : SysState :=
  { s with logs := s.logs ++ [⟨.info, msg, none⟩] }

/-- `repository.ErrRecordNotFound`. -/
def ErrRecordNotFound : GoError := ⟨"record not found"⟩

/-- `repository.ErrDuplicateEntry`. -/
def ErrDuplicateEntry : GoError := ⟨"duplicate entry"⟩

/-- Whether a row matches the `media_id = ? AND user_id = ?` condition. -/
def rowMatches (mediaID userID : Nat) (w : GormWatchlist) : Bool :=
  w.MediaID == mediaID && w.UserID == userID

/-- `PostgresRepository.CheckInWatchlist`: context check, then a `COUNT` over
rows matching the pair, returning whether the count is positive. -/
def PostgresRepository.CheckInWatchlist (ctx : Context) (mediaID userID : Nat)
    (s : SysState) : Except GoError Bool × SysState :=
  if ctx.done then
    (.error ctx.cause,
     s.logError ("CheckInWatchlist operation canceled for media ID: "
       ++ toString mediaID ++ " and user ID: " ++ toString userID) ctx.cause)
  else
    let count := (s.store.filter (rowMatches mediaID userID)).length
    let s1 := { s with dbOps := s.dbOps ++ ["count"] }
    let s2 := s1.logInfo ("media checked in watchlist for media ID: "
      ++ toString mediaID ++ " and user ID: " ++ toString userID)
    (.ok (decide (0 < count)), s2)

/-- `PostgresRepository.AddToWatchlist`: context check, existence check via
`CheckInWatchlist`, `ErrDuplicateEntry` when present, otherwise an INSERT that
assigns the auto-increment primary key. -/
def PostgresRepository.AddToWatchlist (ctx : Context) (watchlist : GormWatchlist)
    (s : SysState) : Except GoError Unit × SysState :=
  if ctx.done then
    (.error ctx.cause,
     s.logError ("AddToWatchlist operation canceled for media ID: "
       ++ toString watchlist.MediaID ++ " and user ID: "
       ++ toString watchlist.UserID) ctx.cause)
  else
    match PostgresRepository.CheckInWatchlist ctx watchlist.MediaID watchlist.UserID s with
    | (.error err, s1) =>
      (.error err,
       s1.logError ("failed to check watchlist existence for media ID: "
         ++ toString watchlist.MediaID ++ " and user ID: "
         ++ toString watchlist.UserID) err)
    | (.ok ex, s1) =>
      if ex then
        (.error ErrDuplicateEntry,
         s1.logWarn ("media already in watchlist for media ID: "
           ++ toString watchlist.MediaID ++ " and user ID: "
           ++ toString watchlist.UserID))
      else
        let created := { watchlist with ID := s1.nextID }
        let s2 := { s1 with
          store := s1.store ++ [created],
          nextID := s1.nextID + 1,
          dbOps := s1.dbOps ++ ["create"] }
        (.ok (),
         s2.logInfo ("media added to watchlist successfully for media ID: "
           ++ toString watchlist.MediaID ++ " and user ID: "
           ++ toString watchlist.UserID))

/-- `PostgresRepository.RemoveFromWatchlist`: context check, existence check,
`ErrRecordNotFound` when absent, otherwise a DELETE of the matching rows. -/
def PostgresRepository.RemoveFromWatchlist (ctx : Context) (mediaID userID : Nat)
    (s : SysState) : Except GoError Unit × SysState :=
  if ctx.done then
    (.error ctx.cause,
     s.logError ("RemoveFromWatchlist operation canceled for media ID: "
       ++ toString mediaID ++ " and user ID: " ++ toString userID) ctx.cause)
  else
    match PostgresRepository.CheckInWatchlist ctx mediaID userID s with
    | (.error err, s1) =>
      (.error err,
       s1.logError ("failed to check watchlist existence for media ID: "
         ++ toString mediaID ++ " and user ID: " ++ toString userID) err)
    | (.ok ex, s1) =>
      if ¬ ex then
        (.error ErrRecordNotFound,
         s1.logWarn ("media not found in watchlist for media ID: "
           ++ toString mediaID ++ " and user ID: " ++ toString userID))
      else
        let s2 := { s1 with
          store := s1.store.filter (fun w => ¬ rowMatches mediaID userID w),
          dbOps := s1.dbOps ++ ["delete"] }
        (.ok (),
         s2.logInfo ("media removed from watchlist successfully for media ID: "
           ++ toString mediaID ++ " and user ID: " ++ toString userID))

/-- `PostgresRepository.GetWatchlist`: context check, then a SELECT of the
rows with the given user id. -/
def PostgresRepository.GetWatchlist (ctx : Context) (userID : Nat)
    (s : SysState) : Except GoError (List GormWatchlist) × SysState :=
  if ctx.done then
    (.error ctx.cause,
     s.logError ("GetWatchlist operation canceled for user ID: "
       ++ toString userID) ctx.cause)
  else
    let rows := s.store.filter (fun w => w.UserID == userID)
    let s1 := { s with dbOps := s.dbOps ++ ["find"] }
    let s2 := s1.logInfo ("watchlist fetched successfully for user ID: "
      ++ toString userID)
    (.ok rows, s2)

/-! ## Service layer -/

/-- A gRPC status code used by the service. -/
inductive Code where
  | Canceled
  | InvalidArgument
  | Internal
deriving DecidableEq, Repr

/-- A gRPC error built with `status.Error`/`status.Errorf`. -/
structure GrpcStatus where
  code : Code
  message : String
deriving DecidableEq, Repr

/-- `watchlist.AddToWatchlistRequest`. -/
structure AddToWatchlistRequest where
  MediaId : Int
  UserId : Int
deriving DecidableEq, Repr

/-- `watchlist.AddToWatchlistResponse`. -/
structure AddToWatchlistResponse where
  Success : Bool
deriving DecidableEq, Repr

/-- `watchlist.RemoveFromWatchlistRequest`. -/
structure RemoveFromWatchlistRequest where
  MediaId : Int
  UserId : Int
deriving DecidableEq, Repr

/-- `watchlist.RemoveFromWatchlistResponse`. -/
structure RemoveFromWatchlistResponse where
  Success : Bool
deriving DecidableEq, Repr

/-- `watchlist.GetWatchlistRequest`. -/
structure GetWatchlistRequest where
  UserId : Int
deriving DecidableEq, Repr

/-- `watchlist.WatchlistItem`. -/
structure WatchlistItem where
  Id : Int
  MediaId : Int
  UserId : Int
  CreatedAt : String
deriving DecidableEq, Repr

/-- `watchlist.GetWatchlistResponse`. -/
structure GetWatchlistResponse where
  Watchlists : List WatchlistItem
deriving DecidableEq, Repr

/-- `watchlist.CheckInWatchlistRequest`. -/
structure CheckInWatchlistRequest where
  MediaId : Int
  UserId : Int
deriving DecidableEq, Repr

/-- `watchlist.CheckInWatchlistResponse`. -/
structure CheckInWatchlistResponse where
  InWatchlist : Bool
deriving DecidableEq, Repr

/-- `WatchlistService.checkContextCancelled`: when the context's cancellation
signal has fired, logs `"<method> operation canceled"` at error level with the
cancellation cause and returns `ctx.Err()`. -/
def WatchlistService.checkContextCancelled (ctx : Context) (method : String)
    (s : SysState) : Option GoError × SysState :=
  if ctx.done then
    (some ctx.cause, s.logError (method ++ " operation canceled") ctx.cause)
  else
    (none, s)

/-- `WatchlistService.AddToWatchlist` composed with the concrete
`PostgresRepository` it is deployed with. `now` stands for `time.Now()`. -/
def WatchlistService.AddToWatchlist (ctx : Context) (now : GoTime)
    (req : AddToWatchlistRequest) (s : SysState) :
    Except GrpcStatus AddToWatchlistResponse × SysState :=
  match WatchlistService.checkContextCancelled ctx "AddToWatchlist" s with
  | (some err, s1) => (.error ⟨.Canceled, err.msg⟩, s1)
  | (none, s1) =>
    if req.MediaId ≤ 0 ∨ req.UserId ≤ 0 then
      (.error ⟨.InvalidArgument, "media_id и user_id должны быть положительными числами"⟩,
       s1.logWarn "invalid media_id or user_id: must be positive integers")
    else
      let watchlistItem : GormWatchlist :=
        { ID := 0, MediaID := req.MediaId.toNat, UserID := req.UserId.toNat,
          CreatedAt := now }
      match PostgresRepository.AddToWatchlist ctx watchlistItem s1 with
      | (.error err, s2) =>
        if err = ErrDuplicateEntry then
          (.ok { Success := true },
           s2.logInfo ("media already in watchlist for media ID: "
             ++ toString req.MediaId ++ " and user ID: " ++ toString req.UserId))
        else
          (.error ⟨.Internal, "ошибка при добавлении в watchlist: " ++ err.msg⟩,
           s2.logError ("failed to add media to watchlist for media ID: "
             ++ toString req.MediaId ++ " and user ID: " ++ toString req.UserId) err)
      | (.ok _, s2) =>
        (.ok { Success := true },
         s2.logInfo ("media added to watchlist successfully for media ID: "
           ++ toString req.MediaId ++ " and user ID: " ++ toString req.UserId))

/-- `WatchlistService.RemoveFromWatchlist` composed with the concrete
`PostgresRepository`. -/
def WatchlistService.RemoveFromWatchlist (ctx : Context)
    (req : RemoveFromWatchlistRequest) (s : SysState) :
    Except GrpcStatus RemoveFromWatchlistResponse × SysState :=
  match WatchlistService.checkContextCancelled ctx "RemoveFromWatchlist" s with
  | (some err, s1) => (.error ⟨.Canceled, err.msg⟩, s1)
  | (none, s1) =>
    if req.MediaId ≤ 0 ∨ req.UserId ≤ 0 then
      (.error ⟨.InvalidArgument, "media_id и user_id должны быть положительными числами"⟩,
       s1.logWarn "invalid media_id or user_id: must be positive integers")
    else
      match PostgresRepository.RemoveFromWatchlist ctx req.MediaId.toNat req.UserId.toNat s1 with
      | (.error err, s2) =>
        if err = ErrRecordNotFound then
          (.ok { Success := false },
           s2.logWarn ("media not found in watchlist for media ID: "
             ++ toString req.MediaId ++ " and user ID: " ++ toString req.UserId))
        else
          (.error ⟨.Internal, "ошибка при удалении из watchlist: " ++ err.msg⟩,
           s2.logError ("failed to remove media from watchlist for media ID: "
             ++ toString req.MediaId ++ " and user ID: " ++ toString req.UserId) err)
      | (.ok _, s2) =>
        (.ok { Success := true },
         s2.logInfo ("media removed from watchlist successfully for media ID: "
           ++ toString req.MediaId ++ " and user ID: " ++ toString req.UserId))

/-- `WatchlistService.GetWatchlist` composed with the concrete
`PostgresRepository`. -/
def WatchlistService.GetWatchlist (ctx : Context) (req : GetWatchlistRequest)
    (s : SysState) : Except GrpcStatus GetWatchlistResponse × SysState :=
  match WatchlistService.checkContextCancelled ctx "GetWatchlist" s with
  | (some err, s1) => (.error ⟨.Canceled, err.msg⟩, s1)
  | (none, s1) =>
    if req.UserId ≤ 0 then
      (.error ⟨.InvalidArgument, "user_id должен быть положительным числом"⟩,
       s1.logWarn "invalid user_id: must be a positive integer")
    else
      match PostgresRepository.GetWatchlist ctx req.UserId.toNat s1 with
      | (.error err, s2) =>
        (.error ⟨.Internal, "ошибка при получении watchlist: " ++ err.msg⟩,
         s2.logError ("failed to get watchlist for user ID: "
           ++ toString req.UserId) err)
      | (.ok gormWatchlists, s2) =>
        let watchlistItems := gormWatchlists.map (fun gw =>
          { Id := (gw.ID : Int), MediaId := (gw.MediaID : Int),
            UserId := (gw.UserID : Int),
            CreatedAt := gw.CreatedAt.formatRFC3339 : WatchlistItem })
        (.ok { Watchlists := watchlistItems },
         s2.logInfo ("watchlist fetched successfully for user ID: "
           ++ toString req.UserId))

/-- `WatchlistService.CheckInWatchlist` composed with the concrete
`PostgresRepository`. -/
def WatchlistService.CheckInWatchlist (ctx : Context)
    (req : CheckInWatchlistRequest) (s : SysState) :
    Except GrpcStatus CheckInWatchlistResponse × SysState :=
  match WatchlistService.checkContextCancelled ctx "CheckInWatchlist" s with
  | (some err, s1) => (.error ⟨.Canceled, err.msg⟩, s1)
  | (none, s1) =>
    if req.MediaId ≤ 0 ∨ req.UserId ≤ 0 then
      (.error ⟨.InvalidArgument, "media_id и user_id должны быть положительными числами"⟩,
       s1.logWarn "invalid media_id or user_id: must be positive integers")
    else
      match PostgresRepository.CheckInWatchlist ctx req.MediaId.toNat req.UserId.toNat s1 with
      | (.error err, s2) =>
        (.error ⟨.Internal, "ошибка при проверке наличия в watchlist: " ++ err.msg⟩,
         s2.logError ("failed to check media in watchlist for media ID: "
           ++ toString req.MediaId ++ " and user ID: " ++ toString req.UserId) err)
      | (.ok inWatchlist, s2) =>
        (.ok { InWatchlist := inWatchlist },
         s2.logInfo ("media checked in watchlist for media ID: "
           ++ toString req.MediaId ++ " and user ID: " ++ toString req.UserId))

/-! ## Async sink executions: interleavings of Handle calls and worker steps

Each async sink has one producer side (`Handle`, called by the dispatcher) and
one consumer worker (`processLogs`). An execution is an arbitrary interleaving
of the two, which this section models as a list of steps applied to the sink
state. -/

/-- One step of an async sink's execution: a `Handle` call delivering a
record, or the worker receiving from the channel. -/
inductive SinkOp where
  | enq (record : SlogRecord)
  | work
deriving DecidableEq, Repr

/-- Apply one step to a `FileHandler`. -/
def FileHandler.step (f : FileHandler) : SinkOp → FileHandler
  | .enq record => (f.Handle record).2.1
  | .work => f.workStep

/-- Run a `FileHandler` through a list of steps. -/
def FileHandler.run (f : FileHandler) : List SinkOp → FileHandler
  | [] => f
  | op :: ops => (f.step op).run ops

/-- Apply one step to a `KafkaHandler`. -/
def KafkaHandler.step (k : KafkaHandler) : SinkOp → KafkaHandler
  | .enq record => (k.Handle record).2.1
  | .work => k.workStep

/-- Run a `KafkaHandler` through a list of steps. -/
def KafkaHandler.run (k : KafkaHandler) : List SinkOp → KafkaHandler
  | [] => k
  | op :: ops => (k.step op).run ops

/-- The records an execution submits, in submission order. -/
def SinkOp.enqueued : List SinkOp → List SlogRecord
  | [] => []
  | .enq record :: ops => record :: SinkOp.enqueued ops
  | .work :: ops => SinkOp.enqueued ops

/-- No `Handle` call of the execution finds the file sink's queue full. -/
def FileHandler.noOverflow (f : FileHandler) : List SinkOp → Bool
  | [] => true
  | .enq record :: ops =>
    decide (f.logChan.length < f.cap) && (f.step (.enq record)).noOverflow ops
  | .work :: ops => f.workStep.noOverflow ops

/-- No `Handle` call of the execution finds the Kafka sink's queue full. -/
def KafkaHandler.noOverflow (k : KafkaHandler) : List SinkOp → Bool
  | [] => true
  | .enq record :: ops =>
    decide (k.logChan.length < k.cap) && (k.step (.enq record)).noOverflow ops
  | .work :: ops => k.workStep.noOverflow ops

/-! ## Theorems -/

/-- The loop of `MultiHandler.Handle` visits every child in order: its trace is
the per-child `Handle` results, and its result is `firstErr` as seeded or, when
seeded with nil, the first non-nil child error. -/
theorem handleLoop_spec (record : SlogRecord) (hs : List AbsSink) :
    ∀ fe : Option GoError,
    MultiAbs.handleLoop hs record fe
      = ((match fe with
          | some e => some e
          | none => firstErrOf (hs.map (fun h => h.Handle record))),
         hs.map (fun h => h.Handle record)) := by
  induction hs with
  | nil => intro fe; cases fe <;> rfl
  | cons h hs ih =>
    intro fe
    cases fe <;> cases he : h.Handle record <;>
      simp [MultiAbs.handleLoop, he, ih, firstErrOf]

/-- Claim C1: for every record and every fan-out dispatcher over N child
sinks, `MultiHandler.Handle` invokes `Handle` on all N children exactly once,
in list order and with no early abort (the invocation trace is the per-child
result list), returns the first error encountered (nil if none errs), and its
behaviour does not depend on any child's `Enabled` result. -/
theorem fanout_handle_all_children (hs : List AbsSink) (record : SlogRecord) :
    (MultiAbs.Handle hs record).2 = hs.map (fun h => h.Handle record) ∧
    (MultiAbs.Handle hs record).1 = firstErrOf (hs.map (fun h => h.Handle record)) ∧
    ∀ en : AbsSink → Level → Bool,
      MultiAbs.Handle (hs.map (fun h => { h with Enabled := en h })) record
        = MultiAbs.Handle hs record := by
  refine ⟨?_, ?_, ?_⟩
  · simp [MultiAbs.Handle, handleLoop_spec]
  · simp [MultiAbs.Handle, handleLoop_spec]
  · intro en
    simp only [MultiAbs.Handle, handleLoop_spec, List.map_map]
    rfl

/-- Claim C6: `CloseAll` invokes `Close` exactly once on every child that
supports it, in list order, ignoring each close error: its trace is the close
results of the closable children, and which children get closed does not
depend on any child's close error. -/
theorem closeall_closes_every_closable_child (hs : List AbsSink) :
    MultiAbs.CloseAll hs = (hs.filter (fun h => h.closable)).map (fun h => h.CloseErr) ∧
    ∀ g : AbsSink → Option GoError,
      (MultiAbs.CloseAll (hs.map (fun h => { h with CloseErr := g h }))).length
        = (hs.filter (fun h => h.closable)).length := by
  constructor
  · induction hs with
    | nil => rfl
    | cons h hs ih =>
      by_cases hc : h.closable <;> simp [MultiAbs.CloseAll, hc, ih]
  · intro g
    induction hs with
    | nil => rfl
    | cons h hs ih =>
      by_cases hc : h.closable <;> simp [MultiAbs.CloseAll, hc, ih]

/-- Claim C7: `WithAttrs` and `WithGroup` on the dispatcher return a new
dispatcher (built by `NewMultiHandler`, the original value untouched) whose
children are the attribute/group-augmented versions of each child; for each
concrete child type of this repository that augmented version is the child
itself. -/
theorem withattrs_withgroup_functional (m : MultiHandler) (attrs : List Attr)
    (name : String) :
    m.WithAttrs attrs = NewMultiHandler (m.handlers.map (fun h => h.WithAttrs attrs)) ∧
    m.WithGroup name = NewMultiHandler (m.handlers.map (fun h => h.WithGroup name)) ∧
    (m.WithAttrs attrs).handlers = m.handlers.map (fun h => h.WithAttrs attrs) ∧
    (m.WithGroup name).handlers = m.handlers.map (fun h => h.WithGroup name) ∧
    (∀ h : LeafHandler, h.WithAttrs attrs = h) ∧
    (∀ h : LeafHandler, h.WithGroup name = h) := by
  refine ⟨rfl, rfl, rfl, rfl, ?_, ?_⟩ <;> intro h <;> cases h <;> rfl

/-- Claim C2: a `Handle` call on an async sink whose queue is at capacity
returns nil and leaves the sink state unchanged (the record is dropped and
never reaches the sink's output), printing only the local diagnostic; and
`Handle` on both async sinks returns nil for every input. -/
theorem async_handle_full_drop (k : KafkaHandler) (f : FileHandler)
    (record : SlogRecord)
    (hk : k.logChan.length = k.cap) (hf : f.logChan.length = f.cap) :
    k.Handle record = (none, k, ["log channel is full, dropping log message"]) ∧
    f.Handle record = (none, f, ["file log channel is full, dropping log message"]) ∧
    (∀ (k' : KafkaHandler) (r' : SlogRecord), (k'.Handle r').1 = none) ∧
    (∀ (f' : FileHandler) (r' : SlogRecord), (f'.Handle r').1 = none) := by
  refine ⟨?_, ?_, ?_, ?_⟩
  · simp [KafkaHandler.Handle, hk]
  · simp [FileHandler.Handle, hf]
  · intro k' r'
    by_cases h : k'.logChan.length < k'.cap <;> simp [KafkaHandler.Handle, h]
  · intro f' r'
    by_cases h : f'.logChan.length < f'.cap <;> simp [FileHandler.Handle, h]

/-- Witness for C2 at a concrete full queue (capacity 0). -/
theorem async_handle_full_drop_witness :
    KafkaHandler.Handle ⟨"logs", 0, [], []⟩ ⟨⟨"2024-01-01T00:00:00Z"⟩, .info, "x"⟩
      = (none, ⟨"logs", 0, [], []⟩, ["log channel is full, dropping log message"]) ∧
    FileHandler.Handle ⟨"logs/svc/app.log", 0, [], []⟩ ⟨⟨"2024-01-01T00:00:00Z"⟩, .info, "x"⟩
      = (none, ⟨"logs/svc/app.log", 0, [], []⟩,
         ["file log channel is full, dropping log message"]) :=
  ⟨(async_handle_full_drop ⟨"logs", 0, [], []⟩ ⟨"logs/svc/app.log", 0, [], []⟩
      ⟨⟨"2024-01-01T00:00:00Z"⟩, .info, "x"⟩ rfl rfl).1,
   (async_handle_full_drop ⟨"logs", 0, [], []⟩ ⟨"logs/svc/app.log", 0, [], []⟩
      ⟨⟨"2024-01-01T00:00:00Z"⟩, .info, "x"⟩ rfl rfl).2.1⟩

/-- Claim C9: LOG_BUFFER_SIZE falls back to 100 when the value is unparsable
or parses to a non-positive integer, and a positive parsed value is used
as-is. -/
theorem log_buffer_size_fallback (s : String) :
    (goAtoi s = none → parseLogBufferSize s = 100) ∧
    (∀ v : Int, goAtoi s = some v → v ≤ 0 → parseLogBufferSize s = 100) ∧
    (∀ v : Int, goAtoi s = some v → 0 < v → parseLogBufferSize s = v) := by
  refine ⟨?_, ?_, ?_⟩
  · intro h
    simp [parseLogBufferSize, h]
  · intro v h hv
    simp [parseLogBufferSize, h, hv]
  · intro v h hv
    simp only [parseLogBufferSize, h]
    rw [if_neg (by omega)]

/-- Witness for C9 on concrete configuration values. -/
theorem log_buffer_size_fallback_witness :
    parseLogBufferSize "abc" = 100 ∧ parseLogBufferSize "-5" = 100 ∧
    parseLogBufferSize "0" = 100 ∧ parseLogBufferSize "42" = 42 :=
  ⟨(log_buffer_size_fallback "abc").1 (by decide),
   (log_buffer_size_fallback "-5").2.1 (-5) (by decide) (by decide),
   (log_buffer_size_fallback "0").2.1 0 (by decide) (by decide),
   (log_buffer_size_fallback "42").2.2 42 (by decide) (by decide)⟩

/-- Claim C3: a worker pass over a record appends to the file exactly the line
`[LEVEL] - <RFC3339 time> - <message>` followed by a newline, and submits to
the bus exactly one message with constant partition key "log" whose JSON
object maps "time" to the RFC3339 time, "level" to the level name and "msg" to
the message and has no other keys; stated for every record (hence every
level), with the `{level=Info, message="x", time=T}` instance spelled out. -/
theorem worker_output_shapes (t : GoTime) (f : FileHandler) (k : KafkaHandler)
    (record : SlogRecord) (restF restK : List SlogRecord)
    (hf : f.logChan = record :: restF) (hk : k.logChan = record :: restK) :
    f.workStep = { f with
      logChan := restF,
      fileContents := f.fileContents
        ++ ["[" ++ record.level.string ++ "] - " ++ record.time.formatRFC3339
            ++ " - " ++ record.message ++ "\n"] } ∧
    k.workStep = { k with
      logChan := restK,
      produced := k.produced ++ [⟨k.topic, "log", kafkaLogEntry record⟩] } ∧
    (kafkaLogEntry record).lookup "time" = some record.time.formatRFC3339 ∧
    (kafkaLogEntry record).lookup "level" = some record.level.string ∧
    (kafkaLogEntry record).lookup "msg" = some record.message ∧
    (kafkaLogEntry record).map Prod.fst = ["level", "msg", "time"] ∧
    fileLine ⟨t, .info, "x"⟩ = "[INFO] - " ++ t.formatRFC3339 ++ " - x" ∧
    (kafkaLogEntry ⟨t, .info, "x"⟩).lookup "level" = some "INFO" ∧
    (kafkaLogEntry ⟨t, .info, "x"⟩).lookup "msg" = some "x" := by
  refine ⟨?_, ?_, ?_, ?_, ?_, ?_, ?_, ?_, ?_⟩
  · simp [FileHandler.workStep, hf, fileLine]
  · simp [KafkaHandler.workStep, hk]
  · simp [kafkaLogEntry, List.lookup]
  · simp [kafkaLogEntry, List.lookup]
  · simp [kafkaLogEntry, List.lookup]
  · simp [kafkaLogEntry]
  · simp [fileLine, Level.string, GoTime.formatRFC3339, ← String.append_assoc]
    rw [String.append_assoc]
    simp
  · simp [kafkaLogEntry, List.lookup, Level.string]
  · simp [kafkaLogEntry, List.lookup]

/-- Witness for C3 at a concrete queued record. -/
theorem worker_output_shapes_witness :
    FileHandler.workStep ⟨"logs/svc/app.log", 2, [⟨⟨"2024-01-01T00:00:00Z"⟩, .info, "x"⟩], []⟩
      = ⟨"logs/svc/app.log", 2, [], ["[INFO] - 2024-01-01T00:00:00Z - x\n"]⟩ ∧
    KafkaHandler.workStep ⟨"events", 2, [⟨⟨"2024-01-01T00:00:00Z"⟩, .info, "x"⟩], []⟩
      = ⟨"events", 2, [],
         [⟨"events", "log",
           [("level", "INFO"), ("msg", "x"), ("time", "2024-01-01T00:00:00Z")]⟩]⟩ :=
  ⟨(worker_output_shapes ⟨"2024-01-01T00:00:00Z"⟩
      ⟨"logs/svc/app.log", 2, [⟨⟨"2024-01-01T00:00:00Z"⟩, .info, "x"⟩], []⟩
      ⟨"events", 2, [⟨⟨"2024-01-01T00:00:00Z"⟩, .info, "x"⟩], []⟩
      ⟨⟨"2024-01-01T00:00:00Z"⟩, .info, "x"⟩ [] [] rfl rfl).1,
   (worker_output_shapes ⟨"2024-01-01T00:00:00Z"⟩
      ⟨"logs/svc/app.log", 2, [⟨⟨"2024-01-01T00:00:00Z"⟩, .info, "x"⟩], []⟩
      ⟨"events", 2, [⟨⟨"2024-01-01T00:00:00Z"⟩, .info, "x"⟩], []⟩
      ⟨⟨"2024-01-01T00:00:00Z"⟩, .info, "x"⟩ [] [] rfl rfl).2.1⟩

/-- Claim C4: `NewLogger` builds the bus sink first, then the file sink, then
the console sink. A bus-sink failure is returned with no file or console
resource acquired; a file-sink failure (at either of its two steps) closes the
already-created bus sink and propagates the file error; on success the logger
is bound to a dispatcher over exactly the three sinks in construction order. -/
theorem newlogger_order_and_cleanup (env : BuildEnv)
    (kafkaTopic serviceName : String) (bufferSize : Nat) :
    (env.kafkaOk = false →
      NewLogger env kafkaTopic serviceName bufferSize
        = (.error ⟨"failed to create async producer: " ++ env.kafkaErr.msg⟩,
           Resources.initial)) ∧
    (env.kafkaOk = true → env.mkdirOk = false →
      NewLogger env kafkaTopic serviceName bufferSize
        = (.error env.mkdirErr,
           { kafkaProducerOpen := false, logDirCreated := false,
             logFileOpen := false })) ∧
    (env.kafkaOk = true → env.mkdirOk = true → env.openOk = false →
      NewLogger env kafkaTopic serviceName bufferSize
        = (.error env.openErr,
           { kafkaProducerOpen := false, logDirCreated := true,
             logFileOpen := false })) ∧
    (env.kafkaOk = true → env.mkdirOk = true → env.openOk = true →
      NewLogger env kafkaTopic serviceName bufferSize
        = (.ok ⟨NewMultiHandler
            [.kafka ⟨kafkaTopic, bufferSize, [], []⟩,
             .file ⟨"logs/" ++ serviceName ++ "/app.log", bufferSize, [], []⟩,
             .stdout NewStdoutHandler]⟩,
           { kafkaProducerOpen := true, logDirCreated := true,
             logFileOpen := true })) := by
  refine ⟨?_, ?_, ?_, ?_⟩
  · intro h1
    simp [NewLogger, NewKafkaHandler, h1]
  · intro h1 h2
    simp [NewLogger, NewKafkaHandler, NewFileHandler, KafkaHandler.CloseRes,
      Resources.initial, h1, h2]
  · intro h1 h2 h3
    simp [NewLogger, NewKafkaHandler, NewFileHandler, KafkaHandler.CloseRes,
      Resources.initial, h1, h2, h3]
  · intro h1 h2 h3
    simp [NewLogger, NewKafkaHandler, NewFileHandler, NewStdoutHandler,
      NewMultiHandler, Resources.initial, h1, h2, h3]

/-- Witness for C4: the three failure/success cases at concrete inputs. -/
theorem newlogger_order_and_cleanup_witness :
    NewLogger ⟨false, true, true, ⟨"dial tcp: refused"⟩, ⟨"mkdir denied"⟩, ⟨"open denied"⟩⟩
        "events" "svc" 2
      = (.error ⟨"failed to create async producer: dial tcp: refused"⟩,
         Resources.initial) ∧
    NewLogger ⟨true, false, true, ⟨"dial tcp: refused"⟩, ⟨"mkdir denied"⟩, ⟨"open denied"⟩⟩
        "events" "svc" 2
      = (.error ⟨"mkdir denied"⟩,
         { kafkaProducerOpen := false, logDirCreated := false, logFileOpen := false }) ∧
    NewLogger ⟨true, true, true, ⟨"dial tcp: refused"⟩, ⟨"mkdir denied"⟩, ⟨"open denied"⟩⟩
        "events" "svc" 2
      = (.ok ⟨NewMultiHandler
          [.kafka ⟨"events", 2, [], []⟩,
           .file ⟨"logs/svc/app.log", 2, [], []⟩,
           .stdout NewStdoutHandler]⟩,
         { kafkaProducerOpen := true, logDirCreated := true, logFileOpen := true }) :=
  ⟨(newlogger_order_and_cleanup
      ⟨false, true, true, ⟨"dial tcp: refused"⟩, ⟨"mkdir denied"⟩, ⟨"open denied"⟩⟩
      "events" "svc" 2).1 rfl,
   (newlogger_order_and_cleanup
      ⟨true, false, true, ⟨"dial tcp: refused"⟩, ⟨"mkdir denied"⟩, ⟨"open denied"⟩⟩
      "events" "svc" 2).2.1 rfl rfl,
   (newlogger_order_and_cleanup
      ⟨true, true, true, ⟨"dial tcp: refused"⟩, ⟨"mkdir denied"⟩, ⟨"open denied"⟩⟩
      "events" "svc" 2).2.2.2 rfl rfl rfl⟩

/-- Execution invariant of the file sink: without overflow, the file contents
followed by the formatted pending queue equal the formatted submission
sequence. -/
theorem file_run_invariant (ops : List SinkOp) :
    ∀ f : FileHandler, f.noOverflow ops = true →
    (f.run ops).fileContents
        ++ (f.run ops).logChan.map (fun r => fileLine r ++ "\n")
      = f.fileContents
        ++ (f.logChan ++ SinkOp.enqueued ops).map (fun r => fileLine r ++ "\n") := by
  induction ops with
  | nil =>
    intro f _
    simp [FileHandler.run, SinkOp.enqueued]
  | cons op ops ih =>
    intro f hno
    cases op with
    | enq record =>
      rw [FileHandler.noOverflow, Bool.and_eq_true] at hno
      have hlt : f.logChan.length < f.cap := of_decide_eq_true hno.1
      have hstep : f.step (.enq record) = { f with logChan := f.logChan ++ [record] } := by
        simp [FileHandler.step, FileHandler.Handle, hlt]
      have := ih (f.step (.enq record)) hno.2
      rw [hstep] at this
      rw [FileHandler.run, hstep, this]
      simp [SinkOp.enqueued]
    | work =>
      rw [FileHandler.noOverflow] at hno
      cases hq : f.logChan with
      | nil =>
        have hstep : f.workStep = f := by
          simp [FileHandler.workStep, hq]
        have := ih f.workStep hno
        rw [hstep] at this
        rw [FileHandler.run, FileHandler.step, hstep, this]
        simp [SinkOp.enqueued, hq]
      | cons record rest =>
        have hstep : f.workStep = { f with
            logChan := rest,
            fileContents := f.fileContents ++ [fileLine record ++ "\n"] } := by
          simp [FileHandler.workStep, hq]
        have := ih f.workStep hno
        rw [hstep] at this
        rw [FileHandler.run, FileHandler.step, hstep, this]
        simp [SinkOp.enqueued, hq]

/-- Execution invariant of the Kafka sink: without overflow, the submitted
producer messages followed by the serialized pending queue equal the
serialization of the submission sequence. -/
theorem kafka_run_invariant (topic : String) (ops : List SinkOp) :
    ∀ k : KafkaHandler, k.topic = topic → k.noOverflow ops = true →
    (k.run ops).produced
        ++ (k.run ops).logChan.map
            (fun r => (⟨topic, "log", kafkaLogEntry r⟩ : ProducerMessage))
      = k.produced
        ++ (k.logChan ++ SinkOp.enqueued ops).map
            (fun r => (⟨topic, "log", kafkaLogEntry r⟩ : ProducerMessage)) := by
  induction ops with
  | nil =>
    intro k _ _
    simp [KafkaHandler.run, SinkOp.enqueued]
  | cons op ops ih =>
    intro k htopic hno
    cases op with
    | enq record =>
      rw [KafkaHandler.noOverflow, Bool.and_eq_true] at hno
      have hlt : k.logChan.length < k.cap := of_decide_eq_true hno.1
      have hstep : k.step (.enq record) = { k with logChan := k.logChan ++ [record] } := by
        simp [KafkaHandler.step, KafkaHandler.Handle, hlt]
      have := ih (k.step (.enq record)) (by rw [hstep]; exact htopic) hno.2
      rw [hstep] at this
      rw [KafkaHandler.run, hstep, this]
      simp [SinkOp.enqueued]
    | work =>
      rw [KafkaHandler.noOverflow] at hno
      cases hq : k.logChan with
      | nil =>
        have hstep : k.workStep = k := by
          simp [KafkaHandler.workStep, hq]
        have := ih k.workStep (by rw [hstep]; exact htopic) hno
        rw [hstep] at this
        rw [KafkaHandler.run, KafkaHandler.step, hstep, this]
        simp [SinkOp.enqueued, hq]
      | cons record rest =>
        have hstep : k.workStep = { k with
            logChan := rest,
            produced := k.produced ++ [⟨k.topic, "log", kafkaLogEntry record⟩] } := by
          simp [KafkaHandler.workStep, hq]
        have := ih k.workStep (by rw [hstep]; exact htopic) hno
        rw [hstep] at this
        rw [KafkaHandler.run, KafkaHandler.step, hstep, this]
        simp [SinkOp.enqueued, hq, htopic]

/-- Claim C8: for every execution of a single async sink in which no `Handle`
call overflows the queue, the worker emits the records in exactly the
submission order: output plus formatted pending queue equals the formatted
submission sequence, so the emitted output is always the corresponding prefix
of it, for both the file sink and the Kafka sink starting from construction. -/
theorem async_sink_fifo (path topic : String) (cap : Nat) (ops : List SinkOp)
    (hf : FileHandler.noOverflow ⟨path, cap, [], []⟩ ops = true)
    (hk : KafkaHandler.noOverflow ⟨topic, cap, [], []⟩ ops = true) :
    (FileHandler.run ⟨path, cap, [], []⟩ ops).fileContents
        ++ (FileHandler.run ⟨path, cap, [], []⟩ ops).logChan.map
            (fun r => fileLine r ++ "\n")
      = (SinkOp.enqueued ops).map (fun r => fileLine r ++ "\n") ∧
    (FileHandler.run ⟨path, cap, [], []⟩ ops).fileContents
      = ((SinkOp.enqueued ops).map (fun r => fileLine r ++ "\n")).take
          (FileHandler.run ⟨path, cap, [], []⟩ ops).fileContents.length ∧
    (KafkaHandler.run ⟨topic, cap, [], []⟩ ops).produced
        ++ (KafkaHandler.run ⟨topic, cap, [], []⟩ ops).logChan.map
            (fun r => (⟨topic, "log", kafkaLogEntry r⟩ : ProducerMessage))
      = (SinkOp.enqueued ops).map
          (fun r => (⟨topic, "log", kafkaLogEntry r⟩ : ProducerMessage)) ∧
    (KafkaHandler.run ⟨topic, cap, [], []⟩ ops).produced
      = ((SinkOp.enqueued ops).map
          (fun r => (⟨topic, "log", kafkaLogEntry r⟩ : ProducerMessage))).take
          (KafkaHandler.run ⟨topic, cap, [], []⟩ ops).produced.length := by
  have h1 := file_run_invariant ops ⟨path, cap, [], []⟩ hf
  have h2 := kafka_run_invariant topic ops ⟨topic, cap, [], []⟩ rfl hk
  simp only [List.nil_append] at h1 h2
  refine ⟨h1, ?_, h2, ?_⟩
  · rw [← h1]
    exact (List.take_left _ _).symm
  · rw [← h2]
    exact (List.take_left _ _).symm

/-- Witness for C8 on a concrete no-overflow execution (capacity 2, two
submissions interleaved with worker passes). -/
theorem async_sink_fifo_witness :
    (FileHandler.run ⟨"logs/svc/app.log", 2, [], []⟩
        [.enq ⟨⟨"T1"⟩, .info, "a"⟩, .enq ⟨⟨"T2"⟩, .warn, "b"⟩, .work, .work]).fileContents
        ++ (FileHandler.run ⟨"logs/svc/app.log", 2, [], []⟩
        [.enq ⟨⟨"T1"⟩, .info, "a"⟩, .enq ⟨⟨"T2"⟩, .warn, "b"⟩, .work, .work]).logChan.map
            (fun r => fileLine r ++ "\n")
      = (SinkOp.enqueued
          [.enq ⟨⟨"T1"⟩, .info, "a"⟩, .enq ⟨⟨"T2"⟩, .warn, "b"⟩, .work, .work]).map
          (fun r => fileLine r ++ "\n") :=
  (async_sink_fifo "logs/svc/app.log" "events" 2
    [.enq ⟨⟨"T1"⟩, .info, "a"⟩, .enq ⟨⟨"T2"⟩, .warn, "b"⟩, .work, .work]
    (by decide) (by decide)).1

/-- Claim C5: every CRUD service and repository method whose context's
cancellation signal has already fired at call entry logs an error-level
diagnostic containing "operation canceled" annotated with the cancellation
cause, returns the cancellation as a failure, and performs no store access
(the store, the primary-key counter and the database-statement trace are
untouched: only the log record is appended). -/
theorem cancelled_context_rejects_operations (ctx : Context)
    (hdone : ctx.done = true) (now : GoTime) (s : SysState)
    (addReq : AddToWatchlistRequest) (remReq : RemoveFromWatchlistRequest)
    (getReq : GetWatchlistRequest) (chkReq : CheckInWatchlistRequest)
    (item : GormWatchlist) (mediaID userID : Nat) :
    WatchlistService.AddToWatchlist ctx now addReq s
      = (.error ⟨.Canceled, ctx.cause.msg⟩,
         { s with logs := s.logs
             ++ [⟨.error, "AddToWatchlist operation canceled", some ctx.cause⟩] }) ∧
    WatchlistService.RemoveFromWatchlist ctx remReq s
      = (.error ⟨.Canceled, ctx.cause.msg⟩,
         { s with logs := s.logs
             ++ [⟨.error, "RemoveFromWatchlist operation canceled", some ctx.cause⟩] }) ∧
    WatchlistService.GetWatchlist ctx getReq s
      = (.error ⟨.Canceled, ctx.cause.msg⟩,
         { s with logs := s.logs
             ++ [⟨.error, "GetWatchlist operation canceled", some ctx.cause⟩] }) ∧
    WatchlistService.CheckInWatchlist ctx chkReq s
      = (.error ⟨.Canceled, ctx.cause.msg⟩,
         { s with logs := s.logs
             ++ [⟨.error, "CheckInWatchlist operation canceled", some ctx.cause⟩] }) ∧
    PostgresRepository.AddToWatchlist ctx item s
      = (.error ctx.cause,
         { s with logs := s.logs
             ++ [⟨.error, "AddToWatchlist operation canceled for media ID: "
                   ++ toString item.MediaID ++ " and user ID: "
                   ++ toString item.UserID, some ctx.cause⟩] }) ∧
    PostgresRepository.RemoveFromWatchlist ctx mediaID userID s
      = (.error ctx.cause,
         { s with logs := s.logs
             ++ [⟨.error, "RemoveFromWatchlist operation canceled for media ID: "
                   ++ toString mediaID ++ " and user ID: "
                   ++ toString userID, some ctx.cause⟩] }) ∧
    PostgresRepository.GetWatchlist ctx userID s
      = (.error ctx.cause,
         { s with logs := s.logs
             ++ [⟨.error, "GetWatchlist operation canceled for user ID: "
                   ++ toString userID, some ctx.cause⟩] }) ∧
    PostgresRepository.CheckInWatchlist ctx mediaID userID s
      = (.error ctx.cause,
         { s with logs := s.logs
             ++ [⟨.error, "CheckInWatchlist operation canceled for media ID: "
                   ++ toString mediaID ++ " and user ID: "
                   ++ toString userID, some ctx.cause⟩] }) := by
  refine ⟨?_, ?_, ?_, ?_, ?_, ?_, ?_, ?_⟩ <;>
    simp [WatchlistService.AddToWatchlist, WatchlistService.RemoveFromWatchlist,
      WatchlistService.GetWatchlist, WatchlistService.CheckInWatchlist,
      WatchlistService.checkContextCancelled,
      PostgresRepository.AddToWatchlist, PostgresRepository.RemoveFromWatchlist,
      PostgresRepository.GetWatchlist, PostgresRepository.CheckInWatchlist,
      SysState.logError, hdone]

/-- Witness for C5 at a concretely cancelled context. -/
theorem cancelled_context_rejects_operations_witness :
    WatchlistService.AddToWatchlist ⟨true, ⟨"context canceled"⟩⟩
        ⟨"2024-01-01T00:00:00Z"⟩ ⟨1, 2⟩ ⟨[], 1, [], []⟩
      = (.error ⟨.Canceled, "context canceled"⟩,
         ⟨[], 1, [⟨.error, "AddToWatchlist operation canceled",
                    some ⟨"context canceled"⟩⟩], []⟩) ∧
    PostgresRepository.CheckInWatchlist ⟨true, ⟨"context canceled"⟩⟩ 1 2
        ⟨[], 1, [], []⟩
      = (.error ⟨"context canceled"⟩,
         ⟨[], 1, [⟨.error,
             "CheckInWatchlist operation canceled for media ID: 1 and user ID: 2",
             some ⟨"context canceled"⟩⟩], []⟩) :=
  have h := cancelled_context_rejects_operations ⟨true, ⟨"context canceled"⟩⟩ rfl
    ⟨"2024-01-01T00:00:00Z"⟩ ⟨[], 1, [], []⟩ ⟨1, 2⟩ ⟨1, 2⟩ ⟨2⟩ ⟨1, 2⟩
    ⟨0, 1, 2, ⟨"T"⟩⟩ 1 2
  ⟨h.1, h.2.2.2.2.2.2.2⟩

/-- Claim C10: `AddToWatchlist` is idempotent at its public interface: with a
live context and positive ids, when the (user, media) pair already exists the
duplicate-entry error from the repository is absorbed and the call returns
`Success = true` with no error, the store unchanged (only the existence check
ran against the database), which is the same observable response a first
successful add returns. -/
theorem add_duplicate_idempotent (ctx : Context) (now : GoTime)
    (req : AddToWatchlistRequest) (s : SysState)
    (hctx : ctx.done = false) (hm : 0 < req.MediaId) (hu : 0 < req.UserId)
    (w : GormWatchlist) (hw : w ∈ s.store)
    (hwm : w.MediaID = req.MediaId.toNat) (hwu : w.UserID = req.UserId.toNat) :
    (WatchlistService.AddToWatchlist ctx now req s).1 = .ok ⟨true⟩ ∧
    (WatchlistService.AddToWatchlist ctx now req s).2.store = s.store ∧
    (WatchlistService.AddToWatchlist ctx now req s).2.nextID = s.nextID ∧
    (WatchlistService.AddToWatchlist ctx now req s).2.dbOps = s.dbOps ++ ["count"] ∧
    ∀ s' : SysState,
      s'.store.filter (rowMatches req.MediaId.toNat req.UserId.toNat) = [] →
      (WatchlistService.AddToWatchlist ctx now req s').1 = .ok ⟨true⟩ := by
  have hval : ¬ (req.MediaId ≤ 0 ∨ req.UserId ≤ 0) := by omega
  have hmem : w ∈ s.store.filter (rowMatches req.MediaId.toNat req.UserId.toNat) :=
    List.mem_filter.mpr ⟨hw, by simp [rowMatches, hwm, hwu]⟩
  have hpos : 0 < (s.store.filter (rowMatches req.MediaId.toNat req.UserId.toNat)).length :=
    List.length_pos.mpr (List.ne_nil_of_mem hmem)
  refine ⟨?_, ?_, ?_, ?_, ?_⟩
  · simp [WatchlistService.AddToWatchlist, WatchlistService.checkContextCancelled,
      PostgresRepository.AddToWatchlist, PostgresRepository.CheckInWatchlist,
      SysState.logInfo, SysState.logWarn, hctx, if_neg hval,
      decide_eq_true hpos, ErrDuplicateEntry]
  · simp [WatchlistService.AddToWatchlist, WatchlistService.checkContextCancelled,
      PostgresRepository.AddToWatchlist, PostgresRepository.CheckInWatchlist,
      SysState.logInfo, SysState.logWarn, hctx, if_neg hval,
      decide_eq_true hpos, ErrDuplicateEntry]
  · simp [WatchlistService.AddToWatchlist, WatchlistService.checkContextCancelled,
      PostgresRepository.AddToWatchlist, PostgresRepository.CheckInWatchlist,
      SysState.logInfo, SysState.logWarn, hctx, if_neg hval,
      decide_eq_true hpos, ErrDuplicateEntry]
  · simp [WatchlistService.AddToWatchlist, WatchlistService.checkContextCancelled,
      PostgresRepository.AddToWatchlist, PostgresRepository.CheckInWatchlist,
      SysState.logInfo, SysState.logWarn, hctx, if_neg hval,
      decide_eq_true hpos, ErrDuplicateEntry]
  · intro s' hempty
    simp [WatchlistService.AddToWatchlist, WatchlistService.checkContextCancelled,
      PostgresRepository.AddToWatchlist, PostgresRepository.CheckInWatchlist,
      SysState.logInfo, SysState.logWarn, hctx, if_neg hval, hempty,
      ErrDuplicateEntry]

/-- Witness for C10 on a store that already holds the pair. -/
theorem add_duplicate_idempotent_witness :
    (WatchlistService.AddToWatchlist ⟨false, ⟨""⟩⟩ ⟨"2024-01-01T00:00:00Z"⟩ ⟨1, 2⟩
        ⟨[⟨1, 1, 2, ⟨"T0"⟩⟩], 2, [], []⟩).1 = .ok ⟨true⟩ ∧
    (WatchlistService.AddToWatchlist ⟨false, ⟨""⟩⟩ ⟨"2024-01-01T00:00:00Z"⟩ ⟨1, 2⟩
        ⟨[⟨1, 1, 2, ⟨"T0"⟩⟩], 2, [], []⟩).2.store = [⟨1, 1, 2, ⟨"T0"⟩⟩] :=
  have h := add_duplicate_idempotent ⟨false, ⟨""⟩⟩ ⟨"2024-01-01T00:00:00Z"⟩ ⟨1, 2⟩
    ⟨[⟨1, 1, 2, ⟨"T0"⟩⟩], 2, [], []⟩ rfl (by decide) (by decide)
    ⟨1, 1, 2, ⟨"T0"⟩⟩ (by decide) (by decide) (by decide)
  ⟨h.1, h.2.1⟩

end Watchlist
